import Mathlib

/-!
Verification of the pinot-dbapi result-decoding core (`pinotdb/db.py`).

The development shallowly embeds the pure fragment of the source: the
parameter escaper and templater (`escape`, `apply_parameters`), schema
inference (`get_type`, `get_description_from_rows`), the aggregation
normalizer and response classifier inside `Cursor.execute`, and the
cursor/connection state machine with its closed-resource guards.

The HTTP transport is treated as an external collaborator: `Cursor.execute`
takes the already-decoded JSON payload and the HTTP status code as inputs,
modelling everything from line 224 of the source onward, plus the
parameter-substitution step that precedes the request.

Exceptions raised by the source are modelled as an `Err` sum type whose
constructors carry the data the corresponding message interpolates.
-/

set_option autoImplicit false

namespace Pinot

/-- The single-quote character, used by the SQL-style escaper. -/
def squote : Char := Char.ofNat 39

/-- Source: `class Type(Enum)` from the source (named `PType` since `Type` is a
Lean keyword): the inferred column types STRING, NUMBER, BOOLEAN. -/
inductive PType where
  | STRING
  | NUMBER
  | BOOLEAN
  deriving DecidableEq, Repr

/-- A scalar value carried through rows and JSON payloads:
strings, numeric values (integers; floats are not distinguished by any
code path modelled here), booleans, and null (Python `None`). -/
inductive Value where
  | str (s : String)
  | num (n : Int)
  | bool (b : Bool)
  | null
  deriving DecidableEq, Repr

/-- A parameter value accepted by `escape`: a scalar, or a (possibly
nested) sequence of parameter values, as in the source's list/tuple case. -/
inductive Pv where
  | str (s : String)
  | num (n : Int)
  | bool (b : Bool)
  | null
  | seq (xs : List Pv)

/-- Errors raised by the modelled code. Each constructor corresponds to one
`raise` site (or implicit runtime error) in the source and carries the data
its message interpolates. -/
inductive Err where
  /-- Source: `exceptions.Error(f'... already closed')` from the `check_closed`
  decorator; the argument is the class name (`"Cursor"` or `"Connection"`). -/
  | alreadyClosed (cls : String)
  /-- Source: `exceptions.Error('Called before execute')` from `check_result`. -/
  | calledBeforeExec
  /-- Source: `exceptions.Error(f'Value of unknown type: ...')` in `get_type`. -/
  | unknownValueType
  /-- Source: `DatabaseError(f'Differing column type found for column ...')`
  in `get_description_from_rows`. -/
  | differingColumnType (name : String) (cur new : PType)
  /-- Source: `DatabaseError` in `get_group_by_column_names` when a metric's
  groupByColumns differ from those already seen. -/
  | groupByColumnsMismatch (metricName : String) (cols other : List String)
  /-- Source: `DatabaseError(f'Query ... timed out: Out of {queried}, only
  {responded} responded')` — the replica-count check. -/
  | timedOut (query : String) (queried responded : Int)
  /-- Source: `ProgrammingError` on a non-200 HTTP status. -/
  | httpStatus (status : Nat)
  /-- Source: `DatabaseError` joining the payload's non-empty exceptions list. -/
  | serverExceptions (msgs : List String)
  /-- Source: `DatabaseError('Invalid response ... both total and group by results')`. -/
  | bothTotalAndGroupBy
  /-- Source: `DatabaseError('Expected ... to contain {len(gby_cols)}, but got
  {len(group_values)}')` — too few group values. -/
  | insufficientGroupValues (expected got : Nat)
  /-- Source: `DatabaseError('... total aggregation results are present even when
  non zero gby_cols ...')`. -/
  | totalWithGroupByCols (cols : List String)
  /-- Source: `DatabaseError('Expected {len(gby_cols)} but got ... for a row')`. -/
  | rowArityMismatch (expected got : Nat)
  /-- Source: `DatabaseError('Expected {len(metric_names)} but got ... for a row')`. -/
  | metricArityMismatch (expected got : Nat)
  /-- Source: `DatabaseError('Expected ... columns in the row but due to name
  collisions got less ...')`. -/
  | nameCollision (expected got : Nat)
  /-- Source: `NotSupportedError` raised by `executemany`. -/
  | notSupported
  /-- Python `KeyError`: a `%`-template placeholder with no matching
  parameter, or a missing required payload key (`agg_result['value']`). -/
  | keyError
  /-- Python `IndexError`: assignment to `new_group_values[0]` when the
  truncated group-value list is empty (zero group-by columns). -/
  | indexError
  /-- Python `TypeError`: `str.join` applied to a non-string element, as
  happens when a sequence parameter contains a numeric/boolean element
  (for those, `escape` returns the raw value, not a string). -/
  | typeErrorJoin
  deriving DecidableEq, Repr

/-! ## Parameter escaper and query templater -/

/-- Double every single quote in a character list: the effect of
`value.replace("'", "''")` in the text branch of `escape`. -/
def doubleQuotesCh : List Char → List Char
  | [] => []
  | c :: rest =>
    if c = squote then squote :: squote :: doubleQuotesCh rest
    else c :: doubleQuotesCh rest

/-- Source: `"'{}'".format(value.replace("'", "''"))`: wrap the quote-doubled text
in single quotes. -/
def quoteWrap (s : String) : String :=
  String.mk (squote :: (doubleQuotesCh s.data ++ [squote]))

/-- The value `escape` returns for one parameter. The source returns a
`str` for text and sequences, but returns numeric, boolean and `None`
values unchanged (raw); those are rendered by `str()` only when the
`%`-interpolation inserts them into the query text. -/
inductive Esc where
  | s (t : String)
  | rawNum (n : Int)
  | rawBool (b : Bool)
  | rawNone
  deriving DecidableEq, Repr

/-- The text that `%`-style interpolation (`%(name)s`) produces for an
escaped value: `str()` of the raw value, or the string itself. -/
def renderEsc : Esc → String
  | .s t => t
  | .rawNum n => toString n
  | .rawBool b => if b then "True" else "False"
  | .rawNone => "None"

mutual

/-- Source: `escape` from the source. Order of checks as in the source:
`value == '*'` (only a string can equal `'*'`), then the string branch,
then `isinstance(value, (int, float))` — which in the source language also
captures booleans, since `bool` is a subtype of `int`, making the
`'TRUE' if value else 'FALSE'` branch unreachable — then the list/tuple
branch. A value matching no branch falls off the end and the implicit
`None` return is rendered by the interpolation. -/
def escape : Pv → Except Err Esc
  | .str s => if s = "*" then .ok (.s s) else .ok (.s (quoteWrap s))
  | .num n => .ok (.rawNum n)
  | .bool b => .ok (.rawBool b)
  | .null => .ok .rawNone
  | .seq xs => do
    let frags ← escapeSeq xs
    .ok (.s (String.intercalate ", " frags))

/-- Source: `', '.join(escape(element) for element in value)`: each element is
escaped; `str.join` raises `TypeError` at the first element whose escaped
form is not a string (numeric, boolean or null elements). -/
def escapeSeq : List Pv → Except Err (List String)
  | [] => .ok []
  | x :: rest => do
    let e ← escape x
    match e with
    | .s t => do
      let ts ← escapeSeq rest
      .ok (t :: ts)
    | _ => .error .typeErrorJoin

end

/-- One piece of a `%`-style query template: literal text or a named
placeholder `%(name)s`. -/
inductive Tmpl where
  | lit (s : String)
  | param (name : String)

/-- Source: `operation % escaped_parameters`: substitute each placeholder with the
`str()` rendering of the correspondingly named escaped parameter;
a placeholder with no matching parameter raises `KeyError`. -/
def renderTemplate (escaped : List (String × Esc)) : List Tmpl → Except Err String
  | [] => .ok ""
  | .lit s :: rest => do
    let r ← renderTemplate escaped rest
    .ok (s ++ r)
  | .param k :: rest =>
    match escaped.find? (fun p => p.1 == k) with
    | some p => do
      let r ← renderTemplate escaped rest
      .ok (renderEsc p.2 ++ r)
    | none => .error .keyError

/-- Source: `apply_parameters` from the source: escape every parameter value, then
interpolate the template. Parameters not referenced by any placeholder are
ignored. -/
def apply_parameters (operation : List Tmpl) (parameters : List (String × Pv)) :
    Except Err String := do
  let escaped ← parameters.mapM (fun p => do
    let e ← escape p.2
    pure (p.1, e))
  renderTemplate escaped operation

/-! ## Schema inference -/

/-- Source: `get_type` from the source: `isinstance(value, string_types)` gives
STRING; `isinstance(value, (int, float))` gives NUMBER — and in the source
language booleans satisfy this check too (`bool` is an `int` subtype), so
the subsequent `isinstance(value, bool)` branch returning BOOLEAN is
unreachable; a `None` value matches nothing and raises. -/
def get_type : Value → Except Err PType
  | .str _ => .ok .STRING
  | .num _ => .ok .NUMBER
  | .bool _ => .ok .NUMBER
  | .null => .error .unknownValueType

/-- A row: an insertion-ordered mapping from column name to value, as a
Python dict with unique keys. -/
abbrev Row := List (String × Value)

/-- Python dict assignment `d[k] = v`: overwrite in place if the key is
present, else append. -/
def dictInsert (d : Row) (k : String) (v : Value) : Row :=
  if d.any (fun p => p.1 == k) then
    d.map (fun p => if p.1 == k then (p.1, v) else p)
  else d ++ [(k, v)]

/-- Fold dict assignments over a pair list: `dict(pairs)` /
`d.update(pairs)` semantics (later duplicate keys overwrite in place). -/
def dictUpdate (d : Row) (pairs : List (String × Value)) : Row :=
  pairs.foldl (fun acc p => dictInsert acc p.1 p.2) d

/-- State of the `get_description_from_rows` scan: the insertion-ordered
`types` dict (`None` = unresolved) and the `unknown_columns` counter. -/
structure DescSt where
  types : List (String × Option PType)
  unknown : Int
  deriving DecidableEq, Repr

/-- Source: `types[name]` after the name is present. -/
def typesGet (ts : List (String × Option PType)) (name : String) : Option PType :=
  match ts.find? (fun p => p.1 == name) with
  | some p => p.2
  | none => none

/-- Source: `types[name] = t` for a present key. -/
def typesSet (ts : List (String × Option PType)) (name : String) (t : Option PType) :
    List (String × Option PType) :=
  ts.map (fun p => if p.1 == name then (p.1, t) else p)

/-- The body of the inner loop of `get_description_from_rows` for one
`(name, value)` item: register an unseen name as unresolved, then, for a
non-null value, resolve or check the column's type. -/
def scanCell (st : DescSt) (name : String) (v : Value) : Except Err DescSt :=
  let st1 : DescSt :=
    if st.types.any (fun p => p.1 == name) then st
    else { types := st.types ++ [(name, none)], unknown := st.unknown + 1 }
  match v with
  | .null => .ok st1
  | v => do
    let newType ← get_type v
    match typesGet st1.types name with
    | none => .ok { types := typesSet st1.types name (some newType),
                    unknown := st1.unknown - 1 }
    | some cur =>
      if newType = cur then .ok st1
      else .error (.differingColumnType name cur newType)

/-- The row loop of `get_description_from_rows`, with the early `break`
once `unknown_columns <= 0` at the end of a row. -/
def descLoop (st : DescSt) : List Row → Except Err DescSt
  | [] => .ok st
  | r :: rest => do
    let st2 ← r.foldlM (fun s p => scanCell s p.1 p.2) st
    if st2.unknown ≤ 0 then .ok st2 else descLoop st2 rest

/-- Source: `get_description_from_rows`: scrape the rows for column names and
inferred types. Each descriptor is `(name, type_code)`; the five reserved
all-`None` descriptor slots of the source are constant and omitted. A
column never seen with a non-null value keeps type `none`. -/
def get_description_from_rows (rows : List Row) :
    Except Err (List (String × Option PType)) := do
  let st ← descLoop { types := [], unknown := 0 } rows
  .ok st.types

/-! ## Response payload and aggregation normalizer -/

/-- One entry of a metric's `groupByResult`: `{'group': [...], 'value': v}`.
Group values are the strings the JSON payload carries. -/
structure GroupEntry where
  group : List String
  value : Value
  deriving DecidableEq, Repr

/-- One element of `aggregationResults`: the metric's `function` name, its
optional `groupByColumns`, optional `groupByResult` list and optional flat
`value` (absence of a required key is a `KeyError` where accessed). -/
structure AggResult where
  function : String
  groupByColumns : Option (List String)
  groupByResult : Option (List GroupEntry)
  value : Option Value
  deriving DecidableEq, Repr

/-- The `selectionResults` object: `{'columns': [...], 'results': [[...]]}`. -/
structure SelectionResults where
  columns : List String
  results : List (List Value)
  deriving DecidableEq, Repr

/-- The decoded JSON payload of one query round-trip, restricted to the
keys the source reads. `none` models an absent key. Payload exceptions are
modelled by their formatted text. -/
structure Payload where
  numServersResponded : Option Int
  numServersQueried : Option Int
  exceptions : List String
  aggregationResults : Option (List AggResult)
  selectionResults : Option SelectionResults
  deriving DecidableEq, Repr

/-- Source: `get_group_by_column_names` as a fold: `group_by_cols` starts empty; a
metric whose (possibly defaulted-empty) `groupByColumns` differ from a
non-empty accumulated list raises; an empty accumulated list is replaced
by the metric's list. -/
def get_group_by_column_names_aux (cols : List String) :
    List AggResult → Except Err (List String)
  | [] => .ok cols
  | m :: rest =>
    let mcols := m.groupByColumns.getD []
    if cols ≠ [] ∧ cols ≠ mcols then
      .error (.groupByColumnsMismatch m.function cols mcols)
    else if cols = [] then get_group_by_column_names_aux mcols rest
    else get_group_by_column_names_aux cols rest

/-- Source: `get_group_by_column_names` from the source. -/
def get_group_by_column_names (ars : List AggResult) : Except Err (List String) :=
  get_group_by_column_names_aux [] ars

/-- The `gby_rows` ordered dict: group-value-tuple keys (the empty tuple is
the total key) to per-metric value slots (`none` = unfilled slot). -/
abbrev GbyRows := List (List String × List (Option Value))

/-- Source: `gby_rows[key] = [None]*num_metrics` if absent, then
`gby_rows[key][i] = v`: ordered-dict insertion plus slot assignment. -/
def gbySet (rows : GbyRows) (key : List String) (n i : Nat) (v : Value) : GbyRows :=
  if rows.any (fun p => p.1 == key) then
    rows.map (fun p => if p.1 == key then (p.1, p.2.set i (some v)) else p)
  else rows ++ [(key, (List.replicate n (none : Option Value)).set i (some v))]

/-- The group-value arity fixup of the source: fewer values than group-by
columns is an error; more values triggers the recovery heuristic — the
excess leading values are string-joined onto the front of the first
retained value and the list truncated to the expected arity (when the
expected arity is zero the `new_group_values[0]` assignment raises
`IndexError`). -/
def fixGroupValues (numCols : Nat) (gv : List String) : Except Err (List String) :=
  if gv.length < numCols then .error (.insufficientGroupValues numCols gv.length)
  else if gv.length > numCols then
    let extra := gv.length - numCols
    match gv.drop extra with
    | [] => .error .indexError
    | h :: t => .ok ((String.join (gv.take extra) ++ h) :: t)
  else .ok gv

/-- Process one `groupByResult` entry for metric slot `i`: fix the group
value arity, then write the metric value under the resulting key. -/
def processGroupEntry (gbyCols : List String) (n i : Nat) (rows : GbyRows)
    (e : GroupEntry) : Except Err GbyRows := do
  let groupValues ← fixGroupValues gbyCols.length e.group
  .ok (gbySet rows groupValues n i e.value)

/-- Process one element of `aggregationResults` (metric slot `i`). A metric
with a `groupByResult` first checks that the total key is not already
present, then writes each group entry. A flat metric ensures the total key
exists, then requires it to be the only key and the group-by column list to
be empty, and writes its `value` (a missing `value` key is a `KeyError`)
into slot `i` of the total row. -/
def processMetric (gbyCols : List String) (n i : Nat) (m : AggResult)
    (rows : GbyRows) : Except Err GbyRows :=
  match m.groupByResult with
  | some gbrs =>
    if rows.any (fun p => p.1 == ([] : List String)) then
      .error .bothTotalAndGroupBy
    else gbrs.foldlM (fun acc e => processGroupEntry gbyCols n i acc e) rows
  | none =>
    let rows1 :=
      if rows.any (fun p => p.1 == ([] : List String)) then rows
      else rows ++ [(([] : List String), List.replicate n (none : Option Value))]
    if rows1.length ≠ 1 then .error .bothTotalAndGroupBy
    else if gbyCols.length > 0 then .error (.totalWithGroupByCols gbyCols)
    else
      match m.value with
      | none => .error .keyError
      | some v => .ok (gbySet rows1 [] n i v)

/-- The `for i, agg_result in enumerate(aggregation_results)` loop. -/
def processMetrics (gbyCols : List String) (n : Nat) (i : Nat) (rows : GbyRows) :
    List AggResult → Except Err GbyRows
  | [] => .ok rows
  | m :: rest => do
    let rows2 ← processMetric gbyCols n i m rows
    processMetrics gbyCols n (i + 1) rows2 rest

/-- Emit one output row per `gby_rows` entry in first-seen key order:
`dict(zip(gby_cols, group_vals))` updated with
`zip(metric_names, metric_vals)` (unfilled slots are `None`), with the
arity checks and the name-collision check of the source. -/
def emitRows (gbyCols metricNames : List String) (gbyRows : GbyRows) :
    Except Err (List Row) :=
  gbyRows.mapM (fun gm =>
    if gm.1.length ≠ gbyCols.length then
      .error (.rowArityMismatch gbyCols.length gm.1.length)
    else if gm.2.length ≠ metricNames.length then
      .error (.metricArityMismatch metricNames.length gm.2.length)
    else
      let row := dictUpdate (dictUpdate [] (gbyCols.zip (gm.1.map Value.str)))
        (metricNames.zip (gm.2.map (fun o => o.getD Value.null)))
      if row.length ≠ gbyCols.length + metricNames.length then
        .error (.nameCollision (gbyCols.length + metricNames.length) row.length)
      else .ok row)

/-- The aggregation normalizer: the `'aggregationResults' in payload`
branch of `Cursor.execute`. -/
def aggregationRows (ars : List AggResult) : Except Err (List Row) := do
  let gbyCols ← get_group_by_column_names ars
  let metricNames := ars.map (fun m => m.function)
  let gbyRows ← processMetrics gbyCols metricNames.length 0 [] ars
  emitRows gbyCols metricNames gbyRows

/-- The selection branch: zip declared column names against each result row
(dict-comprehension semantics; `zip` truncates to the shorter list). -/
def selectionRows (sr : SelectionResults) : List Row :=
  sr.results.map (fun result => dictUpdate [] (sr.columns.zip result))

/-- The replica-count condition of line 227 of the source, on the
defaulted (`.get(..., -1)`) counts. -/
def serverCountViolation (queried responded : Int) : Bool :=
  queried > responded || responded == -1 || queried == -1

/-- Response classification and normalization: lines 224–296 of
`Cursor.execute`, from the decoded payload and HTTP status to the
normalized row list. Validation order: replica counts, then HTTP status,
then the payload's exceptions list; then shape dispatch (aggregation,
selection, else empty). -/
def responseRows (query : String) (status : Nat) (p : Payload) :
    Except Err (List Row) := do
  let responded := p.numServersResponded.getD (-1)
  let queried := p.numServersQueried.getD (-1)
  if serverCountViolation queried responded then
    throw (.timedOut query queried responded)
  if status ≠ 200 then
    throw (.httpStatus status)
  if p.exceptions ≠ [] then
    throw (.serverExceptions p.exceptions)
  match p.aggregationResults with
  | some ars => aggregationRows ars
  | none =>
    match p.selectionResults with
    | some sr => pure (selectionRows sr)
    | none => pure []

/-! ## Cursor and Connection state machines -/

/-- Cursor state: the closed flag, the column descriptors and the row
buffer (`none` before any `execute`), and `arraysize` (default 1).
The result buffer holds the per-row value tuples (`Row(*row.values())`). -/
structure Cursor where
  closed : Bool
  description : Option (List (String × Option PType))
  results : Option (List (List Value))
  arraysize : Nat
  deriving DecidableEq, Repr

/-- A freshly constructed cursor (`Cursor.__init__`; the url and extra
request headers belong to the transport and are not modelled). -/
def newCursor : Cursor :=
  { closed := false, description := none, results := none, arraysize := 1 }

/-- Source: `Cursor.close`: guarded by `check_closed`, so closing an
already-closed cursor raises. -/
def Cursor.close (c : Cursor) : Except Err Cursor :=
  if c.closed then .error (.alreadyClosed "Cursor")
  else .ok { c with closed := true }

/-- Source: `Cursor.execute`: the closed guard, parameter substitution, then (with
the transport's response given as `status`/`p`) classification and
normalization; finally description and result buffer are set — description
stays `None` and the buffer becomes empty when there are no rows. -/
def Cursor.execute (c : Cursor) (operation : List Tmpl)
    (parameters : List (String × Pv)) (status : Nat) (p : Payload) :
    Except Err Cursor :=
  if c.closed then .error (.alreadyClosed "Cursor")
  else do
    let query ← apply_parameters operation parameters
    let rows ← responseRows query status p
    if rows.isEmpty then
      .ok { c with description := none, results := some [] }
    else do
      let desc ← get_description_from_rows rows
      .ok { c with description := some desc,
                   results := some (rows.map (fun r => r.map Prod.snd)) }

/-- Source: `Cursor.executemany`: always unsupported (after the closed guard). -/
def Cursor.executemany (c : Cursor) : Except Err Cursor :=
  if c.closed then .error (.alreadyClosed "Cursor")
  else .error .notSupported

/-- Source: `Cursor.fetchone`. Decorator order in the source is `@check_result`
over `@check_closed`, so the has-results check runs first. Popping from an
empty buffer returns `none` (the no-more-rows signal), not an error. -/
def Cursor.fetchone (c : Cursor) : Except Err (Option (List Value) × Cursor) :=
  match c.results with
  | none => .error .calledBeforeExec
  | some rs =>
    if c.closed then .error (.alreadyClosed "Cursor")
    else
      match rs with
      | [] => .ok (none, c)
      | r :: rest => .ok (some r, { c with results := some rest })

/-- Source: `Cursor.fetchmany`: `size = size or self.arraysize` (a size of 0 is
falsy and also falls back to `arraysize`), then split the buffer. -/
def Cursor.fetchmany (c : Cursor) (size? : Option Nat) :
    Except Err (List (List Value) × Cursor) :=
  match c.results with
  | none => .error .calledBeforeExec
  | some rs =>
    if c.closed then .error (.alreadyClosed "Cursor")
    else
      let size := match size? with
        | none => c.arraysize
        | some k => if k == 0 then c.arraysize else k
      .ok (rs.take size, { c with results := some (rs.drop size) })

/-- Source: `Cursor.fetchall` (`list(self)`): drain the whole buffer via the
iteration protocol. -/
def Cursor.fetchall (c : Cursor) : Except Err (List (List Value) × Cursor) :=
  match c.results with
  | none => .error .calledBeforeExec
  | some rs =>
    if c.closed then .error (.alreadyClosed "Cursor")
    else .ok (rs, { c with results := some [] })

/-- Connection state: the closed flag and the owned cursors. -/
structure Connection where
  closed : Bool
  cursors : List Cursor
  deriving DecidableEq, Repr

/-- Source: `try: cursor.close() except exceptions.Error: pass` inside
`Connection.close`: an already-closed cursor is tolerated. -/
def closeCursorTolerant (c : Cursor) : Cursor :=
  match Cursor.close c with
  | .ok c2 => c2
  | .error _ => c

/-- Source: `Connection.close`: guarded by `check_closed`; marks the connection
closed and closes every cursor, swallowing already-closed errors. -/
def Connection.close (conn : Connection) : Except Err Connection :=
  if conn.closed then .error (.alreadyClosed "Connection")
  else .ok { closed := true, cursors := conn.cursors.map closeCursorTolerant }

/-- Source: `Connection.commit`: a guarded no-op. -/
def Connection.commit (conn : Connection) : Except Err Connection :=
  if conn.closed then .error (.alreadyClosed "Connection")
  else .ok conn

/-- Source: `Connection.cursor`: guarded; create a new cursor and append it. -/
def Connection.cursor (conn : Connection) : Except Err (Cursor × Connection) :=
  if conn.closed then .error (.alreadyClosed "Connection")
  else .ok (newCursor, { conn with cursors := conn.cursors ++ [newCursor] })

/-- Source: `Connection.execute`: guarded; create a cursor and execute on it. (The
source mutates the listed cursor in place; here the executed cursor is the
returned one.) -/
def Connection.execute (conn : Connection) (operation : List Tmpl)
    (parameters : List (String × Pv)) (status : Nat) (p : Payload) :
    Except Err (Cursor × Connection) :=
  if conn.closed then .error (.alreadyClosed "Connection")
  else do
    let (cur, conn2) ← Connection.cursor conn
    let cur2 ← Cursor.execute cur operation parameters status p
    .ok (cur2, conn2)

/-! ## Un-escaping (inverse of the text escaper, for the round-trip
property) -/

/-- Undo quote-doubling: every doubled single quote becomes one quote.
This is the inverse direction of the round-trip property; it is not a
source function. -/
def undoubleCh : List Char → List Char
  | [] => []
  | [c] => [c]
  | c :: c2 :: rest =>
    if c = squote ∧ c2 = squote then squote :: undoubleCh rest
    else c :: undoubleCh (c2 :: rest)

/-- Un-escape a character list: if it is wrapped in single quotes, strip
them and undo quote-doubling; otherwise leave it unchanged (the `'*'`
pass-through case). -/
def unescapeCh (l : List Char) : List Char :=
  match l with
  | c :: c2 :: rest =>
    if c = squote ∧ (c2 :: rest).getLast? = some squote then
      undoubleCh ((c2 :: rest).dropLast)
    else l
  | _ => l

/-- Un-escape the escaper's text output. -/
def unescapeText (t : String) : String :=
  String.mk (unescapeCh t.data)

/-!
# Theorems

Helper lemmas come first; each claim's theorem, counterexample and witness
follow, with the claim id in the doc comment.
-/

theorem string_mk_data (s : String) : String.mk s.data = s := by
  cases s
  rfl

theorem doubleQuotesCh_eq_nil (l : List Char) :
    doubleQuotesCh l = [] ↔ l = [] := by
  cases l with
  | nil => simp [doubleQuotesCh]
  | cons c t =>
    simp only [doubleQuotesCh]
    split <;> simp

theorem undoubleCh_doubleQuotesCh (l : List Char) :
    undoubleCh (doubleQuotesCh l) = l := by
  induction l with
  | nil => rfl
  | cons c t ih =>
    by_cases hc : c = squote
    · subst hc
      simp [doubleQuotesCh, undoubleCh, ih]
    · simp only [doubleQuotesCh, if_neg hc]
      cases hdt : doubleQuotesCh t with
      | nil =>
        have ht : t = [] := (doubleQuotesCh_eq_nil t).mp hdt
        subst ht
        simp [undoubleCh]
      | cons c2 rest =>
        have h2 : ¬(c = squote ∧ c2 = squote) := fun h => hc h.1
        simp only [undoubleCh, if_neg h2]
        rw [← hdt, ih]

theorem unescapeCh_quoteWrapped (l : List Char) :
    unescapeCh (squote :: (doubleQuotesCh l ++ [squote])) = l := by
  cases hd : doubleQuotesCh l with
  | nil =>
    have hl : l = [] := (doubleQuotesCh_eq_nil l).mp hd
    subst hl
    simp [unescapeCh, undoubleCh]
  | cons a rest =>
    have hlast : (a :: (rest ++ [squote])).getLast? = some squote := by
      rw [show a :: (rest ++ [squote]) = (a :: rest) ++ [squote] by simp]
      exact List.getLast?_concat _
    have hdrop : (a :: (rest ++ [squote])).dropLast = a :: rest := by
      rw [show a :: (rest ++ [squote]) = (a :: rest) ++ [squote] by simp]
      exact List.dropLast_concat
    simp only [unescapeCh, List.cons_append]
    rw [if_pos ⟨trivial, hlast⟩, hdrop, ← hd, undoubleCh_doubleQuotesCh]

theorem unescapeText_quoteWrap (s : String) :
    unescapeText (quoteWrap s) = s := by
  show String.mk (unescapeCh (squote :: (doubleQuotesCh s.data ++ [squote]))) = s
  rw [unescapeCh_quoteWrapped, string_mk_data]

/-- C9: the escaper wraps a text value in single quotes with each embedded
single quote doubled, so un-escaping its output recovers the value
exactly; the text value consisting of the single character `*` passes
through unescaped (and unescaping leaves it unchanged). -/
theorem C9_escape_roundtrip (s : String) :
    ∃ t, escape (.str s) = .ok (.s t) ∧ unescapeText t = s ∧
      escape (.str "*") = .ok (.s "*") := by
  by_cases h : s = "*"
  · subst h
    exact ⟨"*", rfl, rfl, rfl⟩
  · refine ⟨quoteWrap s, ?_, unescapeText_quoteWrap s, rfl⟩
    simp [escape, h]

/-- C1: evaluating schema inference at the failing input. A column whose
only non-null value is the boolean `true` is resolved to NUMBER, not
BOOLEAN — the numeric `isinstance` check captures booleans first, so the
BOOLEAN branch of `get_type` is unreachable (first conjunct). The
type-conflict error naming the column and both types is raised when the
conflicting row is reached before the early break (second conjunct), but a
plain two-row conflict is missed because the scan breaks once every column
seen so far is resolved (third conjunct). -/
theorem C1_boolean_inferred_as_number :
    get_description_from_rows [[("a", .bool true)]] =
      .ok [("a", some .NUMBER)] ∧
    get_description_from_rows [[("a", .str "x"), ("b", .null)], [("a", .num 1)]] =
      .error (.differingColumnType "a" .STRING .NUMBER) ∧
    get_description_from_rows [[("a", .str "x")], [("a", .num 1)]] =
      .ok [("a", some .STRING)] := by
  exact ⟨rfl, rfl, rfl⟩

/-- C2: evaluating the escaper and templater on boolean parameters. A
boolean matches the numeric `isinstance` check and is returned raw (the
`TRUE`/`FALSE` branch is unreachable), so interpolation renders the
source language's `str()` of the value — `True`/`False`, not the SQL
keywords `TRUE`/`FALSE`. -/
theorem C2_boolean_rendered_as_python_repr :
    escape (.bool true) = .ok (.rawBool true) ∧
    escape (.bool false) = .ok (.rawBool false) ∧
    apply_parameters [.lit "SELECT ", .param "p"] [("p", .bool true)] =
      .ok "SELECT True" ∧
    apply_parameters [.lit "SELECT ", .param "p"] [("p", .bool false)] =
      .ok "SELECT False" := by
  exact ⟨rfl, rfl, rfl, rfl⟩

/-- C3 counterexample: a payload with `numServersQueried = 2` strictly
less than `numServersResponded = 3` does not make execute fail — response
processing succeeds (here with the empty shape), contradicting the claim
that a queried count less than the responded count is a failure
condition. -/
theorem C3_counterexample :
    responseRows "q" 200 ⟨some 3, some 2, [], none, none⟩ = .ok [] := by
  exact rfl

/-- C3 amended: execute fails with the timeout/partial-response error
naming the query and both counts whenever `numServersQueried` is absent
(defaulted to −1), −1, or GREATER than `numServersResponded`, or
`numServersResponded` is −1 (or absent); and this check precedes the
HTTP-status and exceptions-list checks — the timeout error is produced
regardless of the status code and exceptions list. -/
theorem C3_amended_replica_check (q : String) (status : Nat) (p : Payload)
    (h : p.numServersQueried.getD (-1) = -1 ∨
         p.numServersResponded.getD (-1) = -1 ∨
         p.numServersResponded.getD (-1) < p.numServersQueried.getD (-1)) :
    responseRows q status p =
      .error (.timedOut q (p.numServersQueried.getD (-1))
        (p.numServersResponded.getD (-1))) := by
  have hc : serverCountViolation (p.numServersQueried.getD (-1))
      (p.numServersResponded.getD (-1)) = true := by
    simp only [serverCountViolation, Bool.or_eq_true, decide_eq_true_eq,
      beq_iff_eq]
    omega
  simp only [responseRows, hc, if_true]
  rfl

/-- C3 witness: a payload with `numServersQueried` absent fails with the
timeout error even though the HTTP status is 404 and the exceptions list
is non-empty (the replica check runs first). -/
theorem C3_witness :
    responseRows "q" 404 ⟨some 2, none, ["boom"], none, none⟩ =
      .error (.timedOut "q" (-1) 2) :=
  C3_amended_replica_check "q" 404 ⟨some 2, none, ["boom"], none, none⟩
    (Or.inl rfl)

/-- C4: a payload reporting `numServersQueried = 3`,
`numServersResponded = 2` makes execute fail with the server error citing
the counts 2 and 3; an otherwise valid payload reporting 2 and 2
succeeds. -/
theorem C4_partial_response_detection :
    responseRows "q" 200 ⟨some 2, some 3, [], none, none⟩ =
      .error (.timedOut "q" 3 2) ∧
    responseRows "q" 200 ⟨some 2, some 2, [], none,
        some ⟨["a"], [[.num 1]]⟩⟩ =
      .ok [[("a", .num 1)]] := by
  exact ⟨rfl, rfl⟩

/-- C6: for a group entry whose value list exceeds the declared group-by
arity, the excess leading values are string-concatenated onto the front of
the first retained value and the list truncated to the declared arity, and
that tuple is used as the group key (first conjunct); an entry with fewer
values than the declared arity fails with the insufficient-group-values
error (second conjunct). -/
theorem C6_excess_group_values (cols excess : List String) (r0 : String)
    (rs : List String) (n i : Nat) (rows : GbyRows) (v : Value)
    (harity : rs.length + 1 = cols.length) (hexcess : excess ≠ []) :
    processGroupEntry cols n i rows ⟨excess ++ r0 :: rs, v⟩ =
      .ok (gbySet rows ((String.join excess ++ r0) :: rs) n i v) ∧
    ∀ gv : List String, gv.length < cols.length →
      processGroupEntry cols n i rows ⟨gv, v⟩ =
        .error (.insufficientGroupValues cols.length gv.length) := by
  constructor
  · have hex : 0 < excess.length := List.length_pos.mpr hexcess
    have hlen : (excess ++ r0 :: rs).length = excess.length + cols.length := by
      simp [List.length_append]
      omega
    have hnotlt : ¬((excess ++ r0 :: rs).length < cols.length) := by omega
    have hgt : (excess ++ r0 :: rs).length > cols.length := by omega
    have hextra : (excess ++ r0 :: rs).length - cols.length = excess.length := by
      omega
    have hdrop : (excess ++ r0 :: rs).drop excess.length = r0 :: rs :=
      List.drop_left _ _
    have htake : (excess ++ r0 :: rs).take excess.length = excess :=
      List.take_left _ _
    simp only [processGroupEntry, fixGroupValues, if_neg hnotlt, if_pos hgt,
      hextra, hdrop, htake]
    rfl
  · intro gv hlt
    simp only [processGroupEntry, fixGroupValues, if_pos hlt]
    rfl

/-- C6 witness: with one declared group-by column, the entry
`["a", "b"]` is keyed by the concatenation `"ab"`, and the empty entry
fails with the insufficient-group-values error. -/
theorem C6_witness :
    processGroupEntry ["city"] 1 0 [] ⟨["a", "b"], .num 1⟩ =
      .ok (gbySet [] [String.join ["a"] ++ "b"] 1 0 (.num 1)) ∧
    processGroupEntry ["city"] 1 0 [] ⟨[], .num 1⟩ =
      .error (.insufficientGroupValues 1 0) :=
  ⟨(C6_excess_group_values ["city"] ["a"] "b" [] 1 0 [] (.num 1)
      rfl (by decide)).1,
   (C6_excess_group_values ["city"] ["a"] "b" [] 1 0 [] (.num 1)
      rfl (by decide)).2 [] (by decide)⟩

/-- C7: the single metric `count` grouped by `city` with entries
NYC→5 then SF→2 normalizes to exactly the two rows
`{city: NYC, count: 5}` then `{city: SF, count: 2}`, in first-seen
group-key insertion order. -/
theorem C7_grouped_merge_order :
    aggregationRows
      [⟨"count", some ["city"], some [⟨["NYC"], .num 5⟩, ⟨["SF"], .num 2⟩],
        none⟩] =
      .ok [[("city", .str "NYC"), ("count", .num 5)],
           [("city", .str "SF"), ("count", .num 2)]] := by
  exact rfl

/-- A flat metric (no `groupByResult`) always errors when the declared
group-by column list is non-empty: either another key makes the total row
not unique, or the non-empty column list contradicts the flat metric. -/
theorem processMetric_flat_error (cols : List String) (hc : cols ≠ [])
    (n i : Nat) (m : AggResult) (hm : m.groupByResult = none)
    (rows : GbyRows) : ∃ e, processMetric cols n i m rows = .error e := by
  unfold processMetric
  rw [hm]
  by_cases h1 :
      (if rows.any (fun p => p.1 == ([] : List String)) then rows
       else rows ++ [(([] : List String),
         List.replicate n (none : Option Value))]).length ≠ 1
  · exact ⟨.bothTotalAndGroupBy, by rw [if_pos h1]⟩
  · refine ⟨.totalWithGroupByCols cols, ?_⟩
    rw [if_neg h1, if_pos (List.length_pos.mpr hc)]

/-- If some metric in the remaining list is flat and the group-by column
list is non-empty, the metric loop errors. -/
theorem processMetrics_flat_error (cols : List String) (hc : cols ≠ [])
    (n : Nat) :
    ∀ (ars : List AggResult) (i : Nat) (rows : GbyRows),
      (∃ m ∈ ars, m.groupByResult = none) →
      ∃ e, processMetrics cols n i rows ars = .error e := by
  intro ars
  induction ars with
  | nil =>
    rintro i rows ⟨m, hmem, -⟩
    exact absurd hmem (List.not_mem_nil m)
  | cons a rest ih =>
    rintro i rows ⟨m, hmem, hflat⟩
    have hbind : processMetrics cols n i rows (a :: rest) =
        Except.bind (processMetric cols n i a rows)
          (fun rows2 => processMetrics cols n (i + 1) rows2 rest) := rfl
    rcases List.mem_cons.mp hmem with rfl | hmem2
    · obtain ⟨e, he⟩ := processMetric_flat_error cols hc n i m hflat rows
      exact ⟨e, by rw [hbind, he]; rfl⟩
    · cases hpm : processMetric cols n i a rows with
      | error e => exact ⟨e, by rw [hbind, hpm]; rfl⟩
      | ok rows2 =>
        obtain ⟨e, he⟩ := ih (i + 1) rows2 ⟨m, hmem2, hflat⟩
        exact ⟨e, by rw [hbind, hpm]; exact he⟩

/-- If `get_group_by_column_names_aux` succeeds and either the accumulator
is already non-empty or some remaining metric declares non-empty
`groupByColumns`, the returned column list is non-empty. -/
theorem gbcn_aux_ne_nil :
    ∀ (ars : List AggResult) (acc cols : List String),
      get_group_by_column_names_aux acc ars = .ok cols →
      (acc ≠ [] ∨ ∃ m ∈ ars, m.groupByColumns.getD [] ≠ []) →
      cols ≠ [] := by
  intro ars
  induction ars with
  | nil =>
    intro acc cols h hd
    have hac : cols = acc := by
      simp only [get_group_by_column_names_aux] at h
      exact (Except.ok.inj h).symm
    rcases hd with hd | ⟨m, hmem, -⟩
    · rw [hac]; exact hd
    · exact absurd hmem (List.not_mem_nil m)
  | cons a rest ih =>
    intro acc cols h hd
    simp only [get_group_by_column_names_aux] at h
    by_cases h1 : acc ≠ [] ∧ acc ≠ a.groupByColumns.getD []
    · rw [if_pos h1] at h
      exact absurd h (by simp)
    · rw [if_neg h1] at h
      by_cases h2 : acc = []
      · rw [if_pos h2] at h
        rcases hd with hd | ⟨m, hmem, hne⟩
        · exact absurd h2 hd
        · rcases List.mem_cons.mp hmem with rfl | hmem2
          · exact ih _ cols h (Or.inl hne)
          · exact ih _ cols h (Or.inr ⟨m, hmem2, hne⟩)
      · rw [if_neg h2] at h
        exact ih _ cols h (Or.inl h2)

/-- C5 counterexample: a response containing both a grouped metric result
(a `groupByResult` whose entry has an empty group tuple, with no declared
group-by columns) and a flat-value metric is not rejected — the normalizer
merges them into one row, contradicting the claim that every response
containing both a global and a grouped metric result fails. -/
theorem C5_counterexample :
    aggregationRows
      [⟨"max", none, some [⟨[], .num 5⟩], none⟩,
       ⟨"count", none, none, some (.num 42)⟩] =
      .ok [[("max", .num 5), ("count", .num 42)]] := by
  exact rfl

/-- C5 amended: for every aggregation response containing both a flat
(global) metric result and a grouped (`groupByResult`) metric result, in
which some metric declares a NON-EMPTY `groupByColumns` list, normalization
fails with an error; in particular the synthetic response with one metric
carrying a `groupByResult` (grouped by `city`) and another carrying a flat
value and no `groupByColumns` is rejected rather than merged. -/
theorem C5_global_grouped_exclusivity (ars : List AggResult)
    (hflat : ∃ m ∈ ars, m.groupByResult = none)
    (_hgrouped : ∃ m ∈ ars, m.groupByResult ≠ none)
    (hcols : ∃ m ∈ ars, m.groupByColumns.getD [] ≠ []) :
    ∃ e, aggregationRows ars = .error e := by
  have hbind : ∀ (x : Except Err (List String))
      (f : List String → Except Err (List Row)),
      (do
        let gbyCols ← x
        f gbyCols) = Except.bind x f := fun _ _ => rfl
  cases hg : get_group_by_column_names ars with
  | error e =>
    refine ⟨e, ?_⟩
    show Except.bind (get_group_by_column_names ars) _ = Except.error e
    rw [hg]
    rfl
  | ok cols =>
    have hcne : cols ≠ [] := gbcn_aux_ne_nil ars [] cols hg (Or.inr hcols)
    obtain ⟨e, he⟩ := processMetrics_flat_error cols hcne
      (ars.map (fun m => m.function)).length ars 0 [] hflat
    refine ⟨e, ?_⟩
    show Except.bind (get_group_by_column_names ars) _ = Except.error e
    rw [hg]
    show Except.bind (processMetrics cols _ 0 [] ars) _ = Except.error e
    rw [he]
    rfl

/-- C5 witness: the synthetic response — one metric grouped by `city`, one
flat metric without `groupByColumns` — is rejected. -/
theorem C5_witness :
    ∃ e, aggregationRows
      [⟨"count", some ["city"], some [⟨["NYC"], .num 5⟩], none⟩,
       ⟨"sum", none, none, some (.num 7)⟩] = .error e :=
  C5_global_grouped_exclusivity _
    ⟨⟨"sum", none, none, some (.num 7)⟩, by decide, rfl⟩
    ⟨⟨"count", some ["city"], some [⟨["NYC"], .num 5⟩], none⟩, by decide,
      by decide⟩
    ⟨⟨"count", some ["city"], some [⟨["NYC"], .num 5⟩], none⟩, by decide,
      by decide⟩

/-- Every cursor ends up closed after the tolerant per-cursor close of
`Connection.close`. -/
theorem closeCursorTolerant_closed (c : Cursor) :
    (closeCursorTolerant c).closed = true := by
  by_cases h : c.closed
  · simp [closeCursorTolerant, Cursor.close, h]
  · simp [closeCursorTolerant, Cursor.close, h]

/-- C8 counterexample: calling `close` on an already-closed cursor is not
a no-op — the `check_closed` guard on `Cursor.close` itself makes the
second standalone `close` fail with the closed-resource error. -/
theorem C8_counterexample :
    (do
      let c1 ← Cursor.close newCursor
      Cursor.close c1) = Except.error (Err.alreadyClosed "Cursor") := by
  exact rfl

/-- C8 amended: after `close()` on a Cursor or Connection, every
subsequent operation on it fails with a usage error — the closed-resource
error, except that a fetch on a closed cursor that never executed reports
the called-before-execute error (its `check_result` guard runs first) —
and this includes `close()` itself, which raises the closed-resource error
rather than being a no-op; an already-closed Cursor encountered during
`Connection.close` is tolerated: its error is caught, connection close
succeeds, and every owned cursor ends closed. -/
theorem C8_closed_resource_guard (c : Cursor) (hc : c.closed = true)
    (conn : Connection) (hn : conn.closed = true)
    (conn2 : Connection) (ho : conn2.closed = false) :
    Cursor.close c = .error (.alreadyClosed "Cursor") ∧
    (∀ op ps st p, Cursor.execute c op ps st p =
      .error (.alreadyClosed "Cursor")) ∧
    Cursor.executemany c = .error (.alreadyClosed "Cursor") ∧
    (c.results = none → Cursor.fetchone c = .error .calledBeforeExec) ∧
    (∀ rs, c.results = some rs →
      Cursor.fetchone c = .error (.alreadyClosed "Cursor") ∧
      (∀ sz, Cursor.fetchmany c sz = .error (.alreadyClosed "Cursor")) ∧
      Cursor.fetchall c = .error (.alreadyClosed "Cursor")) ∧
    Connection.close conn = .error (.alreadyClosed "Connection") ∧
    Connection.commit conn = .error (.alreadyClosed "Connection") ∧
    Connection.cursor conn = .error (.alreadyClosed "Connection") ∧
    (∀ op ps st p, Connection.execute conn op ps st p =
      .error (.alreadyClosed "Connection")) ∧
    (∃ conn3, Connection.close conn2 = .ok conn3 ∧ conn3.closed = true ∧
      conn3.cursors.all (fun cur => cur.closed) = true) := by
  refine ⟨?_, ?_, ?_, ?_, ?_, ?_, ?_, ?_, ?_, ?_⟩
  · simp [Cursor.close, hc]
  · intro op ps st p
    simp [Cursor.execute, hc]
  · simp [Cursor.executemany, hc]
  · intro hr
    simp [Cursor.fetchone, hr]
  · intro rs hr
    refine ⟨?_, ?_, ?_⟩
    · simp [Cursor.fetchone, hr, hc]
    · intro sz
      simp [Cursor.fetchmany, hr, hc]
    · simp [Cursor.fetchall, hr, hc]
  · simp [Connection.close, hn]
  · simp [Connection.commit, hn]
  · simp [Connection.cursor, hn]
  · intro op ps st p
    simp [Connection.execute, hn]
  · refine ⟨Connection.mk true (conn2.cursors.map closeCursorTolerant),
      ?_, rfl, ?_⟩
    · simp [Connection.close, ho]
    · simp only [List.all_eq_true]
      intro cur hcur
      obtain ⟨c0, -, rfl⟩ := List.mem_map.mp hcur
      exact closeCursorTolerant_closed c0

/-- C8 witness: a closed never-executed cursor's fetch reports the
before-execute usage error, its `close` raises the closed error, a closed
connection's `commit` raises, and closing an open connection owning an
already-closed cursor succeeds with every cursor closed. -/
theorem C8_witness :
    Cursor.fetchone ⟨true, none, none, 1⟩ = .error .calledBeforeExec ∧
    Cursor.close ⟨true, none, none, 1⟩ = .error (.alreadyClosed "Cursor") ∧
    Connection.commit ⟨true, []⟩ = .error (.alreadyClosed "Connection") ∧
    (∃ conn3, Connection.close ⟨false, [⟨true, none, none, 1⟩]⟩ = .ok conn3 ∧
      conn3.closed = true ∧
      conn3.cursors.all (fun cur => cur.closed) = true) := by
  have h := C8_closed_resource_guard ⟨true, none, none, 1⟩ rfl ⟨true, []⟩ rfl
    ⟨false, [⟨true, none, none, 1⟩]⟩ rfl
  exact ⟨h.2.2.2.1 rfl, h.1, h.2.2.2.2.2.2.1, h.2.2.2.2.2.2.2.2.2⟩

/-- C10: after an execute whose response yields zero rows, the cursor
counts as executed — the buffer is the empty list (not the pre-execute
`None`), `fetchone` returns the no-more-rows signal rather than the
called-before-execute error, `fetchall` returns the empty list, and
`description` remains `None`. -/
theorem C10_zero_rows_counts_as_executed (c : Cursor) (hc : c.closed = false)
    (op : List Tmpl) (ps : List (String × Pv)) (st : Nat) (p : Payload)
    (q : String) (hq : apply_parameters op ps = .ok q)
    (hr : responseRows q st p = .ok []) :
    ∃ c2, Cursor.execute c op ps st p = .ok c2 ∧
      c2.results = some [] ∧ c2.description = none ∧
      Cursor.fetchone c2 = .ok (none, c2) ∧
      Cursor.fetchall c2 = .ok ([], c2) := by
  refine ⟨{ c with description := none, results := some [] }, ?_, rfl, rfl,
    ?_, ?_⟩
  · show (if c.closed then Except.error (Err.alreadyClosed "Cursor") else _) = _
    rw [if_neg (by rw [hc]; exact Bool.false_ne_true)]
    show Except.bind (apply_parameters op ps) _ = _
    rw [hq]
    show Except.bind (responseRows q st p) _ = _
    rw [hr]
    rfl
  · simp [Cursor.fetchone, hc]
  · simp [Cursor.fetchall, hc]

/-- C10 witness: executing against an otherwise valid empty-shape payload
(neither aggregation nor selection results) leaves the cursor executed
with an empty buffer, `fetchone = None`, `fetchall = []`, and no
description. -/
theorem C10_witness :
    ∃ c2, Cursor.execute newCursor [.lit "q"] [] 200
        ⟨some 1, some 1, [], none, none⟩ = .ok c2 ∧
      c2.results = some [] ∧ c2.description = none ∧
      Cursor.fetchone c2 = .ok (none, c2) ∧
      Cursor.fetchall c2 = .ok ([], c2) :=
  C10_zero_rows_counts_as_executed newCursor rfl [.lit "q"] [] 200
    ⟨some 1, some 1, [], none, none⟩ "q" rfl rfl

end Pinot
